import Mathlib

/-!
Verification of the template-generator repository's core contracts:
the template data model, storage operations, the validation layer,
the tool registry, and the generation orchestrator's tool-calling loop.

JavaScript values that flow through the untyped parts of the code
(JSON.parse results, `Record<string, any>` fields) are modelled by the
`JsonV` inductive below.  External platform collaborators (the file
system, `localStorage`, `JSON.parse`, the model-inference library, MCP
servers) are modelled as explicit parameters: a storage state is given
as the parse outcome of its content, tool dispatch is an oracle
function, and the fresh-id / current-time sources (`nanoid`,
`Date.now`, `Math.random`, `new Date().toISOString()`) are explicit
supplies, since their values are ambient nondeterminism in the source.
-/

namespace TG

/-- Model of a JavaScript/JSON runtime value.  Numbers are modelled as
integers (no claim under verification depends on fractional values, and
the source never produces `NaN` on the verified paths). -/
inductive JsonV where
  | null : JsonV
  | bool (b : Bool) : JsonV
  | num (n : Int) : JsonV
  | str (s : String) : JsonV
  | arr (xs : List JsonV) : JsonV
  | obj (fields : List (String × JsonV)) : JsonV

/-- JavaScript truthiness of a modelled value: `null`, `false`, `0` and
`""` are falsy; every array and object (including empty ones) is truthy. -/
def jsTruthy : JsonV → Bool
  | .null => false
  | .bool b => b
  | .num n => n != 0
  | .str s => s ≠ ""
  | .arr _ => true
  | .obj _ => true

/-- Property access `v[key]` on a modelled value: `some` for a present
object field, `none` (JS `undefined`) otherwise. -/
def jlookup (v : JsonV) (key : String) : Option JsonV :=
  match v with
  | .obj fields => (fields.find? (fun kv => kv.1 == key)).map (·.2)
  | _ => none

/-- Property access that collapses a missing field to `null`; used where
the source only tests the field for truthiness (`undefined` and `null`
are both falsy). -/
def jfield (v : JsonV) (key : String) : JsonV :=
  (jlookup v key).getD .null

/-- Stored template shape, as written by the file-backed storage module
(`loadTemplates`/`saveTemplate`/`toggleTemplatePublic`): `id`, `title`,
`description`, `blocks`, `theme`, `created_at`, `updated_at`,
`is_public`, plus the optional external document back-references.
Blocks and theme are carried as raw values, since the storage layer
treats them opaquely. -/
structure STemplate where
  id : String
  title : String
  description : String
  blocks : List JsonV
  theme : JsonV
  created_at : String
  updated_at : String
  is_public : Bool
  notion_page_id : Option String := none
  shared_url : Option String := none

/-- Embedding of `loadTemplate` (file-backed storage): first template in
the store whose `id` matches, else `null`. -/
def loadTemplate (store : List STemplate) (id : String) : Option STemplate :=
  store.find? (fun t => t.id == id)

/-- Embedding of `saveTemplate` (file-backed storage): replace the first
entry with a matching `id` — bumping `updated_at` to the save time — or
append the template when no entry matches.  `now` models the
`new Date().toISOString()` call inside `saveTemplate`. -/
def saveTemplate (store : List STemplate) (t : STemplate) (now : String) :
    List STemplate :=
  match store.findIdx? (fun u => u.id == t.id) with
  | some i => store.set i { t with updated_at := now }
  | none => store ++ [t]

/-- Embedding of `toggleTemplatePublic`: load the template by id
(returning `null` when absent), flip `is_public`, stamp `updated_at`,
and save.  `now₁` models the toggle's own timestamp, `now₂` the one
taken inside `saveTemplate`; the function returns the value the source
returns together with the resulting store. -/
def toggleTemplatePublic (store : List STemplate) (id : String)
    (now₁ now₂ : String) : Option STemplate × List STemplate :=
  match loadTemplate store id with
  | none => (none, store)
  | some t =>
      let updated := { t with is_public := !t.is_public, updated_at := now₁ }
      (some updated, saveTemplate store updated now₂)

/-- Embedding of `deleteTemplate` (file-backed storage): filter out the
matching id; when nothing was removed, return `false` without calling
`saveTemplates` (so the stored list is untouched), else persist the
filtered list and return `true`.  The returned list is the store
content after the call. -/
def deleteTemplate (store : List STemplate) (id : String) :
    Bool × List STemplate :=
  let filtered := store.filter (fun t => t.id != id)
  if filtered.length == store.length then (false, store)
  else (true, filtered)

/-- Embedding of `loadTemplates` (file-backed storage).  The storage
state is given as (a) whether `templates.json` exists and (b) the
outcome of reading-and-`JSON.parse`-ing its content (`Except.error`
models an unreadable file or a parse exception, both absorbed by the
source's `catch`).  A parsed value that is not an array is replaced by
`[]` (`Array.isArray(parsed) ? parsed : []`). -/
def loadTemplatesFs (fileExists : Bool) (content : Except Unit JsonV) : JsonV :=
  if !fileExists then .arr []
  else
    match content with
    | .error _ => .arr []
    | .ok j => match j with
      | .arr xs => .arr xs
      | _ => .arr []

/-- Embedding of `loadAllTemplates` (browser local-storage variant).
The state is whether `window` is defined and the stored value under the
`templates` key: `none` when the key is absent, otherwise the outcome of
`JSON.parse` on the stored string.  Note the source returns the parsed
value directly (`JSON.parse(stored) as Template[]`) with no
`Array.isArray` check. -/
def loadAllTemplatesLs (windowDefined : Bool)
    (stored : Option (Except Unit JsonV)) : JsonV :=
  if !windowDefined then .arr []
  else
    match stored with
    | none => .arr []
    | some (.error _) => .arr []
    | some (.ok j) => j

/-- Embedding of the `ToolDefinition` interface: `input_schema` is a
`Record<string, any>` in the source and so is carried as a raw value. -/
structure MToolDefinition where
  name : String
  description : String
  input_schema : JsonV
  server_id : String

/-- Embedding of the `ToolCall` interface.  `parameters` is a
`Record<string, any>`, modelled as an insertion-ordered key/value list
(JS object key order, which `Object.entries` iterates). -/
structure MToolCall where
  tool_name : String
  tool_use_id : String
  parameters : List (String × JsonV)

/-- Embedding of `ToolRegistry.validateType`: the `switch` over the
declared primitive type name.  The source's `!isNaN(value)` conjunct on
numbers is vacuous here because modelled numbers are integers.  An
expected type that is not one of the six known names (including the
`undefined` read of a missing `type` field, carried as `none`) falls to
the `default` branch and passes. -/
def validateType (value : JsonV) (expectedType : Option String) : Bool :=
  match expectedType with
  | some "string" => match value with | .str _ => true | _ => false
  | some "number" => match value with | .num _ => true | _ => false
  | some "boolean" => match value with | .bool _ => true | _ => false
  | some "array" => match value with | .arr _ => true | _ => false
  | some "object" => match value with | .obj _ => true | _ => false
  | some "null" => match value with | .null => true | _ => false
  | _ => true

/-- String entries of the schema's `required` array (`schema.required
|| []`); the source assumes a well-formed schema whose `required` is an
array of strings. -/
def requiredKeys (schema : JsonV) : List String :=
  match jlookup schema "required" with
  | some (.arr xs) => xs.filterMap (fun v => match v with
      | .str s => some s
      | _ => none)
  | _ => []

/-- Declared type of a named parameter: `schema.properties[key].type`
when `properties[key]` is truthy and its `type` field is a string,
otherwise `none` (which `validateType` passes). -/
def declaredType (props : JsonV) (key : String) : Option (Option String) :=
  let propSchema := jfield props key
  if jsTruthy propSchema then
    some (match jlookup propSchema "type" with
      | some (.str s) => some s
      | _ => none)
  else none

/-- Embedding of `ToolRegistry.validateToolParameters`.  The source
returns early when the schema or its `properties` field is falsy; it
then walks `required` with `forEach`, throwing at the FIRST missing
parameter, and afterwards walks `Object.entries(parameters)`, throwing
at the FIRST type mismatch against a declared property type.  Thrown
`Error` messages are modelled as `Except.error` strings. -/
def validateToolParameters (tool : MToolDefinition)
    (parameters : List (String × JsonV)) : Except String Unit :=
  if !(jsTruthy tool.input_schema && jsTruthy (jfield tool.input_schema "properties")) then
    .ok ()
  else
    let props := jfield tool.input_schema "properties"
    match (requiredKeys tool.input_schema).find?
        (fun p => !(parameters.any (fun kv => kv.1 == p))) with
    | some p => .error ("Missing required parameter: " ++ p)
    | none =>
        match parameters.find? (fun kv =>
            match declaredType props kv.1 with
            | some et => !validateType kv.2 et
            | none => false) with
        | some kv =>
            let et := (declaredType props kv.1).bind id
            .error ("Invalid type for parameter " ++ kv.1 ++ ". Expected: "
              ++ et.getD "undefined")
        | none => .ok ()

/-- Registry state: `tools` is the name-keyed tool map and
`serverTools` the server-id-keyed map of tool-name sets, both modelled
as insertion-ordered association lists. -/
structure Registry where
  tools : List (String × MToolDefinition)
  serverTools : List (String × List String)

/-- Embedding of `ToolRegistry.getTool` (a `Map.get`). -/
def getTool (reg : Registry) (toolName : String) : Option MToolDefinition :=
  (reg.tools.find? (fun kv => kv.1 == toolName)).map (·.2)

/-- Embedding of `ToolRegistry.findServerForTool`: first server whose
tool-name set contains the name, else `null`. -/
def findServerForTool (reg : Registry) (toolName : String) : Option String :=
  (reg.serverTools.find? (fun kv => kv.2.contains toolName)).map (·.1)

/-- Outcome of `ToolRegistry.executeToolCall`: the returned value or
thrown error, the dispatches actually made to the MCP client
(`mcpClient.callTool` invocations, for the no-dispatch claims), and the
registry as left by the call (the method never mutates it). -/
structure ExecOutcome where
  result : Except String JsonV
  dispatches : List (String × MToolCall)
  registry : Registry

/-- Embedding of `ToolRegistry.executeToolCall`.  `dispatch` models the
external `mcpClient.callTool`; its rejection is rethrown unchanged by
the source's `catch`.  Lookup failure throws `Tool not found: …` before
any validation or dispatch, and a missing owning server throws
`No server found for tool: …` before dispatch. -/
def executeToolCall (reg : Registry)
    (dispatch : String → MToolCall → Except String JsonV)
    (toolCall : MToolCall) : ExecOutcome :=
  match getTool reg toolCall.tool_name with
  | none =>
      { result := .error ("Tool not found: " ++ toolCall.tool_name),
        dispatches := [], registry := reg }
  | some tool =>
      match validateToolParameters tool toolCall.parameters with
      | .error e => { result := .error e, dispatches := [], registry := reg }
      | .ok _ =>
          match findServerForTool reg toolCall.tool_name with
          | none =>
              { result := .error ("No server found for tool: " ++ toolCall.tool_name),
                dispatches := [], registry := reg }
          | some serverId =>
              { result := dispatch serverId toolCall,
                dispatches := [(serverId, toolCall)], registry := reg }

/-- Entry of the batch-dispatch result list, mirroring the object
literal built in `executeBatchToolCalls`. -/
structure BatchEntry where
  tool_call : MToolCall
  success : Bool
  result : Option JsonV
  error : Option String

/-- Batch entry built from one settled per-call outcome (the body of
the `results.map` in `executeBatchToolCalls`): a fulfilled call yields
`success: true` with its value, a rejected one `success: false` with
its reason. -/
def settledEntry (tc : MToolCall) (r : Except String JsonV) : BatchEntry :=
  match r with
  | .ok v => { tool_call := tc, success := true, result := some v, error := none }
  | .error e => { tool_call := tc, success := false, result := none, error := some e }

/-- Embedding of `executeBatchToolCalls`: `Promise.allSettled` over the
per-call executions never rejects and keeps positional correspondence,
so the batch is the positional map of per-call outcomes. -/
def executeBatchToolCalls (reg : Registry)
    (dispatch : String → MToolCall → Except String JsonV)
    (toolCalls : List MToolCall) : List BatchEntry :=
  toolCalls.map (fun tc => settledEntry tc (executeToolCall reg dispatch tc).result)

/-- Index of the last `'\n'` within a character run, used to model the
greedy-with-backtracking match of the `\s*` in `/\n\s*\n/`. -/
def lastNewlineIdx (run : List Char) : Option Nat :=
  match run.reverse.findIdx? (fun c => c == '\n') with
  | some k => some (run.length - 1 - k)
  | none => none

/-- Scanner for `text.split(/\n\s*\n/)`: a match starts at a `'\n'`
followed by a whitespace run containing another `'\n'`; the greedy
`\s*` makes the match end at the last `'\n'` of that run.  `cur` holds
the current piece's characters in reverse. -/
def splitBlankGo (cs : List Char) (cur : List Char) : List String :=
  match cs with
  | [] => [String.mk cur.reverse]
  | c :: rest =>
      if c == '\n' then
        let run := rest.takeWhile Char.isWhitespace
        match lastNewlineIdx run with
        | some p => String.mk cur.reverse :: splitBlankGo (rest.drop (p + 1)) []
        | none => splitBlankGo rest (c :: cur)
      else splitBlankGo rest (c :: cur)
termination_by cs.length
decreasing_by
  · simp only [List.length_drop, List.length_cons]
    omega
  · simp
  · simp

/-- Embedding of the JS `text.split(/\n\s*\n/)` used to cut raw model
output into paragraph sections.  JS `\s` also matches form feeds,
vertical tabs and some Unicode spaces, which `Char.isWhitespace` does
not; no verified claim depends on those characters. -/
def splitBlankLines (s : String) : List String :=
  splitBlankGo s.data []

/-- First six space-separated words of the description:
`description.split(' ').slice(0, 6).join(' ')`. -/
def firstSixWords (d : String) : String :=
  String.intercalate " " ((d.splitOn " ").take 6)

/-- Embedding of `firstLine.replace(/^#+\s*/, '')`: when the line starts
with at least one `'#'`, drop the leading `'#'` run and any whitespace
following it; otherwise the line is unchanged. -/
def stripHeadingMarks (l : String) : String :=
  match l.data with
  | '#' :: _ => String.mk ((l.data.dropWhile (· == '#')).dropWhile Char.isWhitespace)
  | _ => l

/-- Template block as built by the AI-generation module
(`@/lib/types` `TemplateBlock` restricted to the fields the fallback
builder writes: `id`, `type`, `content` and the optional heading
`level`). -/
structure TBlock where
  id : String
  type : String
  content : String
  level : Option Nat := none

/-- Generation request as consumed by `src/lib/ai/tools.ts` (the
`@/lib/types` shape inferred by `GenerationRequestSchema` of the
validation module); only `description` is read by the fallback
builder. -/
structure GRequest where
  description : String
  theme : JsonV
  useMCP : Bool
  selectedMCPServers : List String
  includeImages : Bool
  targetAudience : Option String := none
  complexity : String

/-- Inner `template` object returned by `createStructuredTemplate`
(the source wraps it as `{ template: {...} }`; the wrapper adds no
data). -/
structure CSTResult where
  title : String
  description : String
  blocks : List TBlock

/-- Per-section block construction of `createStructuredTemplate`'s
`forEach` body: non-blank lines of the section; a first line under 100
characters becomes a level-2 heading (with leading `#` marks stripped),
otherwise a paragraph; remaining lines are joined into one following
paragraph.  The accumulator carries the block list and the fresh-id
counter. -/
def sectionStep (ids : Nat → String) (acc : List TBlock × Nat) (sec : String) :
    List TBlock × Nat :=
  let lines := (sec.splitOn "\n").filter (fun l => !(l.trim == ""))
  match lines with
  | [] => acc
  | first :: rest =>
      let firstLine := first.trim
      let headBlock : TBlock :=
        if firstLine.length < 100 then
          { id := ids acc.2, type := "heading", level := some 2,
            content := stripHeadingMarks firstLine }
        else
          { id := ids acc.2, type := "paragraph", content := firstLine }
      if rest.isEmpty then (acc.1 ++ [headBlock], acc.2 + 1)
      else
        (acc.1 ++ [headBlock,
          { id := ids (acc.2 + 1), type := "paragraph",
            content := String.intercalate "\n" rest }], acc.2 + 2)

/-- First unconditional block of the fallback builder: a level-1
heading whose content is the first six words of the description. -/
def leadHeading (ids : Nat → String) (request : GRequest) : TBlock :=
  { id := ids 0, type := "heading", level := some 1,
    content := firstSixWords request.description }

/-- Second unconditional block of the fallback builder: a paragraph
whose content is the full description. -/
def leadParagraph (ids : Nat → String) (request : GRequest) : TBlock :=
  { id := ids 1, type := "paragraph", content := request.description }

/-- Embedding of `createStructuredTemplate`: deterministic block
synthesis from unstructured model text.  `ids` models the successive
`generateId()` draws (`Date.now()` + `Math.random()`, fresh per call),
indexed in call order.  The two leading blocks (level-1 heading with
the first six words, paragraph with the full description) are emitted
unconditionally; then the first 10 non-blank sections of the text are
appended via `sectionStep`. -/
def createStructuredTemplate (ids : Nat → String) (text : String)
    (request : GRequest) : CSTResult :=
  let sections := (splitBlankLines text).filter (fun s => !(s.trim == ""))
  let base : List TBlock := [leadHeading ids request, leadParagraph ids request]
  let folded := (sections.take 10).foldl (sectionStep ids) (base, 2)
  { title := firstSixWords request.description,
    description := request.description, blocks := folded.1 }

/-- Identity-free part of a block (everything but the fresh id), for
stating what is and is not deterministic about the fallback builder. -/
def blockShape (b : TBlock) : String × String × Option Nat :=
  (b.type, b.content, b.level)

/-- Generation request as consumed by `src/lib/ai/inference.ts`
(the `@/lib/types` variant with a named theme). -/
structure IRequest where
  description : String
  theme : String
  useMCP : Bool
  selectedServers : List String

/-- Template as assembled by `src/lib/ai/inference.ts` (`id`, `title`,
`description`, `theme`, `blocks`, `createdAt`); `blocks` is whatever
value `parsed.template.blocks || []` produced and so stays raw. -/
structure ITemplate where
  id : String
  title : String
  description : String
  theme : String
  blocks : JsonV
  createdAt : String

/-- Iteration cap of the tool-calling loop (`MAX_TOOL_ITERATIONS`). -/
def MAX_TOOL_ITERATIONS : Nat := 3

/-- Template assembled from a parsed `template` object: fresh id, title
is the first 50 characters of the description, blocks are
`parsed.template.blocks || []`. -/
def mkParsedTemplate (request : IRequest) (id : String) (now : String)
    (tmplObj : JsonV) : ITemplate :=
  { id := id, title := request.description.take 50,
    description := request.description, theme := request.theme,
    blocks := (let b := jfield tmplObj "blocks"
               if jsTruthy b then b else .arr []),
    createdAt := now }

/-- Fallback template assembled when the iteration bound is reached
with no parsed template: a single level-1 heading block carrying the
full description. -/
def fallbackTemplate (request : IRequest) (id₁ id₂ : String)
    (now : String) : ITemplate :=
  { id := id₁, title := request.description.take 50,
    description := request.description, theme := request.theme,
    blocks := .arr [.obj [("id", .str id₂), ("type", .str "heading"),
      ("content", .str request.description),
      ("properties", .obj [("level", .num 1)])]],
    createdAt := now }

/-- Control outcome of one iteration of the tool-calling loop. -/
inductive StepCtl where
  | cont : StepCtl
  | brk : StepCtl
  | fall : StepCtl

/-- Truth of `parsed.template && typeof parsed.template === "object"`
for an iteration's parse outcome (`none` models "no JSON object found
or `JSON.parse` threw"): JS `typeof` is `"object"` for objects, arrays
and `null`, and `null` is falsy, so the guard holds exactly for objects
and arrays. -/
def parsedTemplateField (parsedOpt : Option JsonV) : Option JsonV :=
  match parsedOpt with
  | none => none
  | some parsed =>
      match jfield parsed "template" with
      | .obj fields => some (.obj fields)
      | .arr xs => some (.arr xs)
      | _ => none

/-- One iteration of the tool-calling loop body over a parse outcome:
adopt a parsed `template`, overwrite `toolCalls` when `tool_calls` is
an array, and decide between `continue` (tool calls present, MCP on,
below the bound), `break` (template present, MCP off, or no tool
calls), and falling through to the bottom of the loop. -/
def iterStep (request : IRequest) (ids : Nat → String) (now : String)
    (i : Nat) (parsedOpt : Option JsonV) (tmpl : Option ITemplate)
    (tcs : List JsonV) (n : Nat) :
    Option ITemplate × List JsonV × Nat × StepCtl :=
  match parsedOpt with
  | none => (tmpl, tcs, n, .fall)
  | some parsed =>
      let (tmpl1, n1) :=
        match parsedTemplateField parsedOpt with
        | some tf => (some (mkParsedTemplate request (ids n) now tf), n + 1)
        | none => (tmpl, n)
      let hasToolCallsArr :=
        match jlookup parsed "tool_calls" with
        | some (.arr _) => true
        | _ => false
      let tcs1 :=
        match jlookup parsed "tool_calls" with
        | some (.arr xs) => xs
        | _ => tcs
      if hasToolCallsArr && request.useMCP && !tcs1.isEmpty
          && decide (i < MAX_TOOL_ITERATIONS - 1) then
        (tmpl1, tcs1, n1, .cont)
      else if tmpl1.isSome || !request.useMCP || tcs1.isEmpty then
        (tmpl1, tcs1, n1, .brk)
      else
        (tmpl1, tcs1, n1, .fall)

/-- Bottom-of-loop fallback (`if (iteration === MAX_TOOL_ITERATIONS -
1) { if (!template) … }`): on the last iteration, when no template has
been assembled, install the fallback template (consuming two fresh
ids: template id and heading-block id). -/
def lastIterFallback (request : IRequest) (ids : Nat → String)
    (now : String) (i : Nat) (tmpl : Option ITemplate) (n : Nat) :
    Option ITemplate × Nat :=
  if i == MAX_TOOL_ITERATIONS - 1 && tmpl.isNone then
    (some (fallbackTemplate request (ids n) (ids (n + 1)) now), n + 2)
  else (tmpl, n)

/-- Result of the tool-calling loop: assembled template, last assigned
tool-call list, number of iterations entered, whether the loop ended
because the iteration counter reached the bound (as opposed to an
early `break`), and the fresh-id counter. -/
structure LoopResult where
  template : Option ITemplate
  toolCalls : List JsonV
  iters : Nat
  exitedByBound : Bool
  nextId : Nat

/-- Embedding of the `for (let iteration = 0; iteration <
MAX_TOOL_ITERATIONS; iteration++)` loop of `generateTemplate`.
`oracle i` is iteration `i`'s parse outcome: the JSON object extracted
from the model response by `fullResponse.match(/\{[\s\S]*\}/)` and
`JSON.parse`, or `none` when no object was found or parsing threw.
`fuel` is the number of remaining permitted iterations (`3 - i`). -/
def loopGo (request : IRequest) (oracle : Nat → Option JsonV)
    (ids : Nat → String) (now : String) :
    Nat → Nat → Option ITemplate → List JsonV → Nat → LoopResult
  | i, 0, tmpl, tcs, n => ⟨tmpl, tcs, i, true, n⟩
  | i, fuel + 1, tmpl, tcs, n =>
      match iterStep request ids now i (oracle i) tmpl tcs n with
      | (tmpl1, tcs1, n1, .cont) =>
          loopGo request oracle ids now (i + 1) fuel tmpl1 tcs1 n1
      | (tmpl1, tcs1, n1, .brk) => ⟨tmpl1, tcs1, i + 1, false, n1⟩
      | (tmpl1, tcs1, n1, .fall) =>
          let (tmpl2, n2) := lastIterFallback request ids now i tmpl1 n1
          loopGo request oracle ids now (i + 1) fuel tmpl2 tcs1 n2

/-- Entry point of the loop as called by `generateTemplate`: iteration
0, full fuel, no template, no tool calls, fresh id counter. -/
def runToolLoop (request : IRequest) (oracle : Nat → Option JsonV)
    (ids : Nat → String) (now : String) : LoopResult :=
  loopGo request oracle ids now 0 MAX_TOOL_ITERATIONS none [] 0

/-- String refinement checks of the zod subset the validation module
uses: `.min(n, msg?)`, `.max(n, msg?)`, `.regex(re, msg?)` (the regex
test is carried as a boolean predicate). -/
inductive StrCheck where
  | min (n : Nat) (msg : Option String) : StrCheck
  | max (n : Nat) (msg : Option String) : StrCheck
  | regex (test : String → Bool) (msg : Option String) : StrCheck

/-- Numeric refinement checks (`z.number().min/max`). -/
inductive NumCheck where
  | min (n : Int) (msg : Option String) : NumCheck
  | max (n : Int) (msg : Option String) : NumCheck

mutual
/-- Deep embedding of the zod schema combinators used by the validation
module: `z.string()` with checks, `z.number()` with checks,
`z.boolean()`, `z.enum([...])`, `z.array(inner)`, `z.object({...})`
(with `.optional()` marking on fields), `z.record(z.any())` and
`z.any()`. -/
inductive Zod where
  | str (checks : List StrCheck) : Zod
  | number (checks : List NumCheck) : Zod
  | boolean : Zod
  | enumOf (vals : List String) : Zod
  | arrayOf (inner : Zod) : Zod
  | object (fields : ZFields) : Zod
  | record : Zod
  | anyVal : Zod

/-- Field list of a `z.object({...})` shape: name, whether the field
schema is wrapped in `.optional()`, and the field schema. -/
inductive ZFields where
  | nil : ZFields
  | cons (name : String) (opt : Bool) (schema : Zod) (rest : ZFields) : ZFields
end

/-- List-literal convenience for building `ZFields`. -/
def zfields : List (String × Bool × Zod) → ZFields
  | [] => .nil
  | (k, opt, s) :: rest => .cons k opt s (zfields rest)

/-- Validation issue as carried by `ZodError.errors`: a field path and
a message. -/
structure ZIssue where
  path : List String
  message : String

/-- JS type name of a value as it appears in zod's "Expected …,
received …" messages. -/
def typeNameOf : JsonV → String
  | .null => "null"
  | .bool _ => "boolean"
  | .num _ => "number"
  | .str _ => "string"
  | .arr _ => "array"
  | .obj _ => "object"

/-- Rendering of an enum's value set in zod's enum messages. -/
def enumValsText (vals : List String) : String :=
  String.intercalate " | " (vals.map (fun v => "'" ++ v ++ "'"))

/-- Zod's default too-short message for `z.string().min(n)`. -/
def strMinMsg (n : Nat) : String :=
  s!"String must contain at least {n} character(s)"

/-- Zod's default too-long message for `z.string().max(n)`. -/
def strMaxMsg (n : Nat) : String :=
  s!"String must contain at most {n} character(s)"

/-- Issues of one string check (zod default messages, overridden by a
custom message when one was passed). -/
def strCheckIssues (path : List String) (s : String) : StrCheck → List ZIssue
  | .min n msg =>
      if s.length < n then [⟨path, msg.getD (strMinMsg n)⟩] else []
  | .max n msg =>
      if n < s.length then [⟨path, msg.getD (strMaxMsg n)⟩] else []
  | .regex test msg =>
      if test s then [] else [⟨path, msg.getD "Invalid"⟩]

/-- Issues of one numeric check. -/
def numCheckIssues (path : List String) (m : Int) : NumCheck → List ZIssue
  | .min n msg =>
      if m < n then
        [⟨path, msg.getD s!"Number must be greater than or equal to {n}"⟩]
      else []
  | .max n msg =>
      if n < m then
        [⟨path, msg.getD s!"Number must be less than or equal to {n}"⟩]
      else []

mutual
/-- Issue collection of zod's `.parse` at a path: a wrong base type
yields a single "Expected …, received …" issue; a correctly-typed
value accumulates the issues of EVERY failing refinement check, every
array element, and every object field — zod reports the complete list
of violations, not only the first. -/
def zodIssues (path : List String) (z : Zod) (v : JsonV) : List ZIssue :=
  match z, v with
  | .str checks, .str s => (checks.map (strCheckIssues path s)).flatten
  | .str _, _ => [⟨path, "Expected string, received " ++ typeNameOf v⟩]
  | .number checks, .num m => (checks.map (numCheckIssues path m)).flatten
  | .number _, _ => [⟨path, "Expected number, received " ++ typeNameOf v⟩]
  | .boolean, .bool _ => []
  | .boolean, _ => [⟨path, "Expected boolean, received " ++ typeNameOf v⟩]
  | .enumOf vals, .str s =>
      if vals.contains s then []
      else [⟨path, "Invalid enum value. Expected " ++ enumValsText vals
        ++ ", received '" ++ s ++ "'"⟩]
  | .enumOf vals, _ =>
      [⟨path, "Expected " ++ enumValsText vals ++ ", received " ++ typeNameOf v⟩]
  | .arrayOf inner, .arr xs => zodArrayIssues path inner 0 xs
  | .arrayOf _, _ => [⟨path, "Expected array, received " ++ typeNameOf v⟩]
  | .object fields, .obj kvs => zodFieldsIssues path fields kvs
  | .object _, _ => [⟨path, "Expected object, received " ++ typeNameOf v⟩]
  | .record, .obj _ => []
  | .record, _ => [⟨path, "Expected object, received " ++ typeNameOf v⟩]
  | .anyVal, _ => []
termination_by (sizeOf z, 0)

/-- Issues of the elements of an array payload, element index appended
to the path. -/
def zodArrayIssues (path : List String) (inner : Zod) (i : Nat)
    (xs : List JsonV) : List ZIssue :=
  match xs with
  | [] => []
  | x :: rest =>
      zodIssues (path ++ [toString i]) inner x
        ++ zodArrayIssues path inner (i + 1) rest
termination_by (sizeOf inner, sizeOf xs + 1)

/-- Issues of an object payload against a field list: a missing
non-optional field contributes a `Required` issue, a present field the
issues of its schema under the extended path; ALL fields are examined
and their issues concatenated.  Undeclared payload keys are ignored
(zod strips them). -/
def zodFieldsIssues (path : List String) (fields : ZFields)
    (kvs : List (String × JsonV)) : List ZIssue :=
  match fields with
  | .nil => []
  | .cons k opt s rest =>
      (match kvs.find? (fun kv => kv.1 == k) with
       | some kv => zodIssues (path ++ [k]) s kv.2
       | none => if opt then [] else [⟨path ++ [k], "Required"⟩])
      ++ zodFieldsIssues path rest kvs
termination_by (sizeOf fields, 0)
end

/-- Result shape of `validateWithErrors`. -/
structure VResult where
  success : Bool
  data : Option JsonV
  errors : List String

/-- Formatting of one `ZodError` entry:
`err.path.join('.') + ": " + err.message`. -/
def formatIssue (i : ZIssue) : String :=
  String.intercalate "." i.path ++ ": " ++ i.message

/-- Embedding of `validateWithErrors`: run the schema, return
`{success: true, data, errors: []}` when parsing succeeds, else
`{success: false, errors}` with EVERY issue formatted as
`"<field.path>: <message>"`.  Zod's `.parse` additionally strips
undeclared object keys from the returned `data`; no verified claim
depends on the returned value's shape, so `data` carries the payload
unchanged. -/
def validateWithErrors (schema : Zod) (payload : JsonV) : VResult :=
  let issues := zodIssues [] schema payload
  if issues.isEmpty then ⟨true, some payload, []⟩
  else ⟨false, none, issues.map formatIssue⟩

/-- Test of the hex-color pattern `^#([A-Fa-f0-9]{6}|[A-Fa-f0-9]{3})$`. -/
def hexColorTest (s : String) : Bool :=
  match s.data with
  | '#' :: rest =>
      (rest.length == 6 || rest.length == 3)
        && rest.all (fun c => c.isDigit || ('a' ≤ c && c ≤ 'f')
          || ('A' ≤ c && c ≤ 'F'))
  | _ => false

/-- Embedding of `TemplateThemeSchema` (part of the canonical
validation module). -/
def TemplateThemeSchema : Zod :=
  .object (zfields [
    ("name", false, .str [.min 1 none]),
    ("colors", false, .object (zfields [
      ("primary", false, .str [.regex hexColorTest none]),
      ("secondary", false, .str [.regex hexColorTest none]),
      ("background", false, .str [.regex hexColorTest none]),
      ("surface", false, .str [.regex hexColorTest none]),
      ("text", false, .str [.regex hexColorTest none]),
      ("accent", false, .str [.regex hexColorTest none])])),
    ("fonts", false, .object (zfields [
      ("heading", false, .str [.min 1 none]),
      ("body", false, .str [.min 1 none])])),
    ("spacing", false, .enumOf ["compact", "comfortable", "spacious"])])

/-- Embedding of the canonical `GenerationRequestSchema` (validation
module): description bounded to 10–2000 characters, with a custom
too-short message and zod's default too-long message. -/
def GenerationRequestSchema : Zod :=
  .object (zfields [
    ("description", false, .str [
      .min 10 (some "Description must be at least 10 characters"),
      .max 2000 none]),
    ("theme", false, TemplateThemeSchema),
    ("useMCP", false, .boolean),
    ("selectedMCPServers", false, .arrayOf (.str [])),
    ("includeImages", false, .boolean),
    ("targetAudience", true, .str [.max 200 none]),
    ("complexity", false, .enumOf ["simple", "intermediate", "advanced"])])

/-- Embedding of the duplicate `GenerationRequestSchema` in
`src/lib/validation.ts`: description bounded to 10–500 characters
(default messages), theme a closed name enum. -/
def GenerationRequestSchemaLib : Zod :=
  .object (zfields [
    ("description", false, .str [.min 10 none, .max 500 none]),
    ("theme", false, .enumOf ["light", "dark", "system", "custom"]),
    ("useMCP", false, .boolean),
    ("selectedServers", false, .arrayOf (.str []))])

/-- Concrete theme payload (the `minimal` preset of the source's
default themes), valid under `TemplateThemeSchema`. -/
def minimalThemePayload : JsonV :=
  .obj [("name", .str "minimal"),
    ("colors", .obj [("primary", .str "#3b82f6"), ("secondary", .str "#64748b"),
      ("background", .str "#ffffff"), ("surface", .str "#f8fafc"),
      ("text", .str "#1e293b"), ("accent", .str "#0ea5e9")]),
    ("fonts", .obj [("heading", .str "Inter"), ("body", .str "Inter")]),
    ("spacing", .str "comfortable")]

/-- Generation-request payload for the canonical schema whose only
varying part is the description. -/
def genReqPayload (d : String) : JsonV :=
  .obj [("description", .str d), ("theme", minimalThemePayload),
    ("useMCP", .bool true), ("selectedMCPServers", .arr []),
    ("includeImages", .bool false), ("complexity", .str "simple")]

/-- Generation-request payload for the `src/lib/validation.ts` schema
whose only varying part is the description. -/
def genReqPayloadLib (d : String) : JsonV :=
  .obj [("description", .str d), ("theme", .str "dark"),
    ("useMCP", .bool false), ("selectedServers", .arr [])]

/-- Description of 501 characters: inside the 10–2000 range the spec
names, but beyond the 500-character cap of the
`src/lib/validation.ts` schema. -/
def dLong : String := String.mk (List.replicate 501 'a')

/-- Payload violating `GenerationRequestSchemaLib` in several places at
once: description too short, `useMCP` of the wrong type, `theme` and
`selectedServers` missing. -/
def payloadTwoBad : JsonV :=
  .obj [("description", .str "hi"), ("useMCP", .num 3)]

/-- Substring test (used to state that an error message does or does
not mention a given key). -/
def strContainsSub (needle hay : String) : Bool :=
  hay.data.tails.any (fun t => needle.data.isPrefixOf t)

/-- All required keys of a tool's schema that the given parameters do
not supply (the complete missing-key list, in `required` order) —
the list the spec expects the `InvalidParameters` error to report. -/
def missingRequired (tool : MToolDefinition)
    (params : List (String × JsonV)) : List String :=
  (requiredKeys tool.input_schema).filter
    (fun p => !(params.any (fun kv => kv.1 == p)))

/-- All supplied parameters whose value mismatches the declared
property type (the complete mismatch list, in parameter order). -/
def typeMismatches (tool : MToolDefinition)
    (params : List (String × JsonV)) : List (String × JsonV) :=
  params.filter (fun kv =>
    match declaredType (jfield tool.input_schema "properties") kv.1 with
    | some et => !validateType kv.2 et
    | none => false)

/-- Message the source throws for a parameter type mismatch. -/
def mismatchMsg (tool : MToolDefinition) (kv : String × JsonV) : String :=
  "Invalid type for parameter " ++ kv.1 ++ ". Expected: "
    ++ (((declaredType (jfield tool.input_schema "properties") kv.1).bind id).getD
      "undefined")

/-- Concrete tool with two required string parameters, used to exercise
the parameter-validation error path. -/
def toolAB : MToolDefinition :=
  { name := "make_page", description := "creates a page",
    input_schema := .obj [
      ("properties", .obj [
        ("a", .obj [("type", .str "string")]),
        ("b", .obj [("type", .str "string")])]),
      ("required", .arr [.str "a", .str "b"])],
    server_id := "srv" }

/-- Concrete registry hosting only `toolAB` on server `srv`. -/
def regAB : Registry :=
  { tools := [("make_page", toolAB)], serverTools := [("srv", ["make_page"])] }

/-- Concrete dispatch oracle: server `srv` answers every call with an
empty content object. -/
def dispatchOk : String → MToolCall → Except String JsonV :=
  fun _ _ => .ok (.obj [("content", .arr [])])

/-- Concrete well-formed call to `toolAB`. -/
def callOk : MToolCall :=
  { tool_name := "make_page", tool_use_id := "u1",
    parameters := [("a", .str "x"), ("b", .str "y")] }

/-- Concrete call to a name absent from the registry. -/
def callUnknown : MToolCall :=
  { tool_name := "delete_page", tool_use_id := "u2",
    parameters := [("a", .str "x")] }

/-- Concrete stored templates for the storage scenarios. -/
def tmplA : STemplate :=
  { id := "a1", title := "Fitness tracker", description := "A fitness tracker with weekly goals",
    blocks := [.obj [("id", .str "b1"), ("type", .str "heading"),
      ("content", .str "Fitness tracker")]],
    theme := minimalThemePayload, created_at := "2024-01-01T00:00:00.000Z",
    updated_at := "2024-01-02T00:00:00.000Z", is_public := false }

/-- Second concrete stored template. -/
def tmplB : STemplate :=
  { id := "b2", title := "Reading list", description := "A reading list with progress",
    blocks := [], theme := minimalThemePayload,
    created_at := "2024-02-01T00:00:00.000Z",
    updated_at := "2024-02-02T00:00:00.000Z", is_public := true }

/-- Concrete inference request used to exercise the tool-calling loop. -/
def reqFit : IRequest :=
  { description := "A fitness tracker with weekly goals and progress charts",
    theme := "dark", useMCP := true, selectedServers := ["notion-mcp"] }

/-- Concrete fresh-id supply (distinguishable draws). -/
def idsSeq : Nat → String := fun n => "id" ++ toString n

/-- Alternative fresh-id supply (models a second call of the same
routine, whose `Date.now()`/`Math.random()` draws differ). -/
def idsAlt : Nat → String := fun n => "x" ++ toString n

/-- Template as stored after a public-flag toggle: `is_public` negated
and `updated_at` restamped, every other field of `t` untouched (this
record update is exactly the object spread the source builds). -/
def togglePatch (t : STemplate) (now : String) : STemplate :=
  { t with is_public := !t.is_public, updated_at := now }

/-- Concrete generation request for the fallback builder. -/
def reqFitG : GRequest :=
  { description := "A fitness tracker with weekly goals and progress charts",
    theme := minimalThemePayload, useMCP := false, selectedMCPServers := [],
    includeImages := false, complexity := "simple" }

/-! ### Helper lemmas -/

theorem find_filter_head {α : Type} (p : α → Bool) (l : List α) :
    l.find? p = (l.filter p).head? := by
  induction l with
  | nil => rfl
  | cons a t ih =>
      cases h : p a with
      | true => simp [List.find?_cons, List.filter_cons, h]
      | false =>
          rw [List.find?_cons, h, List.filter_cons, h]
          simp only [Bool.false_eq_true, if_false, ih]

theorem saveTemplate_cons_ne (s : STemplate) (rest : List STemplate)
    (u : STemplate) (now : String) (h : (s.id == u.id) = false) :
    saveTemplate (s :: rest) u now = s :: saveTemplate rest u now := by
  unfold saveTemplate
  rw [List.findIdx?_cons, h]
  simp only [Bool.false_eq_true, if_false, List.findIdx?_succ]
  cases hj : rest.findIdx? (fun v => v.id == u.id) with
  | none => rfl
  | some j => rfl

theorem saveTemplate_cons_eq (s : STemplate) (rest : List STemplate)
    (u : STemplate) (now : String) (h : (s.id == u.id) = true) :
    saveTemplate (s :: rest) u now = { u with updated_at := now } :: rest := by
  unfold saveTemplate
  rw [List.findIdx?_cons, h]
  rfl

theorem loadTemplate_cons_true {s : STemplate} {rest : List STemplate}
    {id : String} (hs : (s.id == id) = true) :
    loadTemplate (s :: rest) id = some s := by
  unfold loadTemplate
  rw [List.find?_cons, hs]

theorem loadTemplate_cons_false {s : STemplate} {rest : List STemplate}
    {id : String} (hs : (s.id == id) = false) :
    loadTemplate (s :: rest) id = loadTemplate rest id := by
  unfold loadTemplate
  rw [List.find?_cons, hs]

theorem toggle_of_load_some {store : List STemplate} {id : String}
    {t : STemplate} (h : loadTemplate store id = some t)
    (now₁ now₂ : String) :
    toggleTemplatePublic store id now₁ now₂ =
      (some (togglePatch t now₁),
       saveTemplate store (togglePatch t now₁) now₂) := by
  unfold toggleTemplatePublic
  rw [h]
  rfl

/-! ### Claim theorems -/

/-- C9: deleting a template by an id not present in the store returns
`false` (not found) and leaves the stored list unchanged — the source
returns before ever calling `saveTemplates`, so no write occurs. -/
theorem c9_delete_absent_id (store : List STemplate) (id : String)
    (h : ∀ t ∈ store, t.id ≠ id) :
    deleteTemplate store id = (false, store) := by
  have hf : store.filter (fun t => t.id != id) = store := by
    apply List.filter_eq_self.mpr
    intro a ha
    simpa using h a ha
  simp [deleteTemplate, hf]

/-- Witness for C9 at a concrete two-template store and an absent id. -/
theorem c9_delete_absent_id_witness :
    deleteTemplate [tmplA, tmplB] "zzz" = (false, [tmplA, tmplB]) := by
  apply c9_delete_absent_id
  intro t ht
  rcases List.mem_cons.mp ht with h | h
  · subst h; decide
  · rcases List.mem_cons.mp h with h2 | h2
    · subst h2; decide
    · simp at h2

/-- C7: calling a tool name absent from the registry fails with the
`Tool not found` error, performs no dispatch to any server, and leaves
the registry unchanged. -/
theorem c7_unknown_tool (reg : Registry)
    (dispatch : String → MToolCall → Except String JsonV) (tc : MToolCall)
    (h : getTool reg tc.tool_name = none) :
    executeToolCall reg dispatch tc =
      { result := .error ("Tool not found: " ++ tc.tool_name),
        dispatches := [], registry := reg } := by
  unfold executeToolCall
  rw [h]

/-- Witness for C7: a registry hosting only `make_page`, called with
`delete_page`. -/
theorem c7_unknown_tool_witness :
    executeToolCall regAB dispatchOk callUnknown =
      { result := .error "Tool not found: delete_page",
        dispatches := [], registry := regAB } :=
  c7_unknown_tool regAB dispatchOk callUnknown rfl

/-- C5: batch dispatch returns exactly one entry per submitted call, in
corresponding positions, each carrying that call's own settled outcome;
in particular one call's failure never affects any other entry. -/
theorem c5_batch_positional (reg : Registry)
    (dispatch : String → MToolCall → Except String JsonV)
    (toolCalls : List MToolCall) :
    (executeBatchToolCalls reg dispatch toolCalls).length = toolCalls.length ∧
    ∀ (i : Nat) (hi : i < toolCalls.length),
      (executeBatchToolCalls reg dispatch toolCalls)[i]? =
        some (settledEntry (toolCalls.get ⟨i, hi⟩)
          (executeToolCall reg dispatch (toolCalls.get ⟨i, hi⟩)).result) := by
  constructor
  · simp [executeBatchToolCalls]
  · intro i hi
    simp [executeBatchToolCalls, List.getElem?_eq_getElem hi]

/-- Witness for C5: three calls where exactly the middle one fails
(unknown tool): the batch has 3 entries, the middle entry is marked
failed with its own error, the first entry carries its own success. -/
theorem c5_batch_positional_witness :
    (executeBatchToolCalls regAB dispatchOk [callOk, callUnknown, callOk]).length = 3 ∧
    (executeBatchToolCalls regAB dispatchOk [callOk, callUnknown, callOk])[1]? =
      some { tool_call := callUnknown, success := false, result := none,
             error := some "Tool not found: delete_page" } ∧
    (executeBatchToolCalls regAB dispatchOk [callOk, callUnknown, callOk])[0]? =
      some { tool_call := callOk, success := true,
             result := some (.obj [("content", .arr [])]), error := none } := by
  obtain ⟨hl, he⟩ := c5_batch_positional regAB dispatchOk [callOk, callUnknown, callOk]
  exact ⟨hl, (he 1 (by decide)).trans rfl, (he 0 (by decide)).trans rfl⟩

/-- Counterexample for C10 as stated: in the browser local-storage
variant, a stored value that parses to valid JSON which is NOT an
array (here the number `5`) is returned unchecked instead of the empty
list — the source has no `Array.isArray` guard. -/
theorem c10_ls_nonarray_counterexample :
    loadAllTemplatesLs true (some (.ok (.num 5))) = .num 5 ∧
    loadAllTemplatesLs true (some (.ok (.num 5))) ≠ .arr [] := by
  constructor
  · rfl
  · intro h
    simp [loadAllTemplatesLs] at h

/-- C10 (amended): both load variants are total; the file-backed
variant returns the empty list on every bad state (missing file,
unreadable/corrupt content, non-array JSON) and the parsed array
otherwise; the browser variant returns the empty list for a missing
`window`, a missing key and corrupt JSON, but passes a successfully
parsed value through unchecked. -/
theorem c10_load_total (c : Except Unit JsonV)
    (st : Option (Except Unit JsonV)) (j : JsonV) :
    loadTemplatesFs false c = .arr [] ∧
    loadTemplatesFs true (.error ()) = .arr [] ∧
    ((∀ xs, j ≠ .arr xs) → loadTemplatesFs true (.ok j) = .arr []) ∧
    (∀ xs, loadTemplatesFs true (.ok (.arr xs)) = .arr xs) ∧
    loadAllTemplatesLs false st = .arr [] ∧
    loadAllTemplatesLs true none = .arr [] ∧
    loadAllTemplatesLs true (some (.error ())) = .arr [] ∧
    loadAllTemplatesLs true (some (.ok j)) = j := by
  refine ⟨rfl, rfl, ?_, fun xs => rfl, rfl, rfl, rfl, rfl⟩
  intro h
  cases j with
  | arr xs => exact absurd rfl (h xs)
  | null => rfl
  | bool b => rfl
  | num n => rfl
  | str s => rfl
  | obj fields => rfl

/-- Witness for C10 (amended) at a concrete non-array parse outcome. -/
theorem c10_load_total_witness :
    loadTemplatesFs true (.ok (.num 7)) = .arr [] ∧
    loadAllTemplatesLs true (some (.ok (.num 7))) = .num 7 := by
  obtain ⟨-, -, h3, -, -, -, -, h8⟩ :=
    c10_load_total (.error ()) none (.num 7)
  exact ⟨h3 (fun xs h => by cases h), h8⟩

/-- Counterexample for C4 as stated: with two required keys `a` and `b`
both missing, the thrown error names only the first (`a`); the message
does not mention `b` at all, so the error does not list every missing
required key. -/
theorem c4_first_violation_counterexample :
    validateToolParameters toolAB [] = .error "Missing required parameter: a" ∧
    missingRequired toolAB [] = ["a", "b"] ∧
    strContainsSub "b" "Missing required parameter: a" = false := by
  refine ⟨rfl, rfl, by decide⟩

/-- C4 (amended): parameter validation succeeds exactly when there is
no violation, and otherwise fails with an error naming only the FIRST
violation encountered — the first missing required key if any exists,
else the first type mismatch in parameter order (`forEach` throws at
the first offending entry). -/
theorem c4_first_violation (tool : MToolDefinition)
    (params : List (String × JsonV))
    (hguard : (jsTruthy tool.input_schema
      && jsTruthy (jfield tool.input_schema "properties")) = true) :
    validateToolParameters tool params =
      match (missingRequired tool params).head? with
      | some p => .error ("Missing required parameter: " ++ p)
      | none =>
          match (typeMismatches tool params).head? with
          | some kv => .error (mismatchMsg tool kv)
          | none => .ok () := by
  unfold validateToolParameters missingRequired typeMismatches mismatchMsg
  rw [hguard]
  rw [← find_filter_head, ← find_filter_head]
  rfl

/-- Witness for C4 (amended): supplying only `a` makes `b` the first
missing key, and the validation error names it. -/
theorem c4_first_violation_witness :
    validateToolParameters toolAB [("a", .num 1)] =
      .error "Missing required parameter: b" :=
  (c4_first_violation toolAB [("a", .num 1)] rfl).trans rfl

/-- C8: toggling a stored template's public flag stores a template that
differs from the original in exactly `is_public` (negated) and
`updated_at` (the save timestamp); the record update preserves `id`,
`title`, `description`, `blocks`, `theme`, `created_at` and the
optional back-references, and every other store entry is untouched
(the resulting store is a single-position `set` of the original). -/
theorem c8_toggle_only_public_and_updated :
    ∀ (store : List STemplate) (id now₁ now₂ : String) (t : STemplate),
    loadTemplate store id = some t →
    ∃ i, store.get? i = some t ∧
      (toggleTemplatePublic store id now₁ now₂).2 =
        store.set i (togglePatch t now₂) ∧
      loadTemplate (toggleTemplatePublic store id now₁ now₂).2 id =
        some (togglePatch t now₂) := by
  intro store
  induction store with
  | nil => intro id now₁ now₂ t h; simp [loadTemplate] at h
  | cons s rest ih =>
      intro id now₁ now₂ t h
      cases hs : s.id == id with
      | true =>
          have hts : t = s := by
            rw [loadTemplate_cons_true hs] at h
            exact (Option.some_inj.mp h).symm
          subst hts
          have hsave : saveTemplate (t :: rest) (togglePatch t now₁) now₂ =
              togglePatch t now₂ :: rest := by
            have hbeq : (t.id == (togglePatch t now₁).id) = true := by
              simp [togglePatch]
            rw [saveTemplate_cons_eq _ _ _ _ hbeq]
            simp [togglePatch]
          have htog :=
            toggle_of_load_some (@loadTemplate_cons_true t rest id hs) now₁ now₂
          refine ⟨0, rfl, ?_, ?_⟩
          · rw [htog]
            show saveTemplate (t :: rest) _ now₂ = _
            rw [hsave]
            rfl
          · rw [htog]
            show loadTemplate (saveTemplate (t :: rest) _ now₂) id = _
            rw [hsave, loadTemplate_cons_true]
            exact hs
      | false =>
          rw [loadTemplate_cons_false hs] at h
          obtain ⟨i, hget, hstore, hload⟩ := ih id now₁ now₂ t h
          have htid : t.id = id := by simpa using List.find?_some h
          have hsne : (s.id == (togglePatch t now₁).id) = false := by
            show (s.id == t.id) = false
            rw [htid]
            exact hs
          have htogC := toggle_of_load_some
            (show loadTemplate (s :: rest) id = some t by
              rw [loadTemplate_cons_false hs]; exact h) now₁ now₂
          have htogR := toggle_of_load_some h now₁ now₂
          have hsaveR : saveTemplate rest (togglePatch t now₁) now₂ =
              (toggleTemplatePublic rest id now₁ now₂).2 := by
            rw [htogR]
          refine ⟨i + 1, hget, ?_, ?_⟩
          · rw [htogC]
            show saveTemplate (s :: rest) _ now₂ = _
            rw [saveTemplate_cons_ne _ _ _ _ hsne, hsaveR, hstore]
            rfl
          · rw [htogC]
            show loadTemplate (saveTemplate (s :: rest) _ now₂) id = _
            rw [saveTemplate_cons_ne _ _ _ _ hsne, loadTemplate_cons_false hs,
              hsaveR]
            exact hload

/-- Witness for C8 at a concrete two-template store: toggling `a1`
stores it with `is_public` flipped and `updated_at` replaced, all
other fields intact. -/
theorem c8_toggle_only_public_and_updated_witness :
    loadTemplate (toggleTemplatePublic [tmplB, tmplA] "a1" "T1" "T2").2 "a1" =
      some (togglePatch tmplA "T2") := by
  obtain ⟨i, -, -, hload⟩ :=
    c8_toggle_only_public_and_updated [tmplB, tmplA] "a1" "T1" "T2" tmplA rfl
  exact hload

theorem sectionStep_append (ids : Nat → String) (bs : List TBlock) (n : Nat)
    (sec : String) :
    ∃ d m, sectionStep ids (bs, n) sec = (bs ++ d, m) := by
  unfold sectionStep
  cases hl : (sec.splitOn "\n").filter (fun l => !(l.trim == "")) with
  | nil => exact ⟨[], n, by simp⟩
  | cons first rest =>
      dsimp only
      split_ifs <;> exact ⟨_, _, rfl⟩

theorem foldl_sectionStep_append (ids : Nat → String) :
    ∀ (secs : List String) (bs : List TBlock) (n : Nat),
    ∃ tailB, (secs.foldl (sectionStep ids) (bs, n)).1 = bs ++ tailB := by
  intro secs
  induction secs with
  | nil => intro bs n; exact ⟨[], by simp⟩
  | cons sec secs ih =>
      intro bs n
      obtain ⟨d, m, hdm⟩ := sectionStep_append ids bs n sec
      rw [List.foldl_cons, hdm]
      obtain ⟨tailB, ht⟩ := ih (bs ++ d) m
      exact ⟨d ++ tailB, by rw [ht, List.append_assoc]⟩

theorem cst_blocks_decomp (ids : Nat → String) (text : String)
    (request : GRequest) :
    ∃ tailB, (createStructuredTemplate ids text request).blocks =
      leadHeading ids request :: leadParagraph ids request :: tailB := by
  unfold createStructuredTemplate
  obtain ⟨tailB, ht⟩ := foldl_sectionStep_append ids
    (((splitBlankLines text).filter (fun s => !(s.trim == ""))).take 10)
    [leadHeading ids request, leadParagraph ids request] 2
  exact ⟨tailB, by simpa using ht⟩

theorem sectionStep_shape (ids ids2 : Nat → String) (bs bs2 : List TBlock)
    (n : Nat) (sec : String)
    (hsh : bs.map blockShape = bs2.map blockShape) :
    (sectionStep ids (bs, n) sec).1.map blockShape =
      (sectionStep ids2 (bs2, n) sec).1.map blockShape ∧
    (sectionStep ids (bs, n) sec).2 = (sectionStep ids2 (bs2, n) sec).2 := by
  unfold sectionStep
  cases hl : (sec.splitOn "\n").filter (fun l => !(l.trim == "")) with
  | nil => exact ⟨hsh, rfl⟩
  | cons first rest =>
      dsimp only
      split_ifs with h1 h2 h2 <;> constructor <;>
        simp [blockShape, hsh]

theorem foldl_sectionStep_shape (ids ids2 : Nat → String) :
    ∀ (secs : List String) (bs bs2 : List TBlock) (n : Nat),
    bs.map blockShape = bs2.map blockShape →
    (secs.foldl (sectionStep ids) (bs, n)).1.map blockShape =
      (secs.foldl (sectionStep ids2) (bs2, n)).1.map blockShape := by
  intro secs
  induction secs with
  | nil => intro bs bs2 n hsh; simpa using hsh
  | cons sec secs ih =>
      intro bs bs2 n hsh
      obtain ⟨hfst, hsnd⟩ := sectionStep_shape ids ids2 bs bs2 n sec hsh
      rw [List.foldl_cons, List.foldl_cons]
      have h1 : sectionStep ids (bs, n) sec =
          ((sectionStep ids (bs, n) sec).1, (sectionStep ids (bs, n) sec).2) := rfl
      have h2 : sectionStep ids2 (bs2, n) sec =
          ((sectionStep ids2 (bs2, n) sec).1, (sectionStep ids2 (bs2, n) sec).2) := rfl
      rw [h1, h2, hsnd]
      exact ih _ _ _ hfst

/-- C2 (amended): the fallback block builder is total, always yields at
least two blocks, its first block is a level-1 heading whose content is
the first six words of the request description, its second a paragraph
carrying the full description; and it is deterministic on identical
input text UP TO the freshly generated block ids: the sequence of block
shapes (type, content, level) does not depend on the id supply. -/
theorem c2_fallback_builder (ids ids2 : Nat → String) (text : String)
    (request : GRequest) :
    2 ≤ (createStructuredTemplate ids text request).blocks.length ∧
    (createStructuredTemplate ids text request).blocks.head? =
      some (leadHeading ids request) ∧
    (createStructuredTemplate ids text request).blocks[1]? =
      some (leadParagraph ids request) ∧
    (createStructuredTemplate ids2 text request).blocks.map blockShape =
      (createStructuredTemplate ids text request).blocks.map blockShape := by
  obtain ⟨tailB, ht⟩ := cst_blocks_decomp ids text request
  refine ⟨by rw [ht]; simp, by rw [ht]; simp, by rw [ht]; simp, ?_⟩
  show ((((splitBlankLines text).filter (fun s => !(s.trim == ""))).take 10).foldl
      (sectionStep ids2) ([leadHeading ids2 request, leadParagraph ids2 request], 2)).1.map blockShape = _
  apply foldl_sectionStep_shape
  simp [blockShape, leadHeading, leadParagraph]

/-- Counterexample for C2's determinism conjunct as stated: two calls
of the fallback builder on the SAME input text differ, because each
call draws fresh block ids from `Date.now()`/`Math.random()` (modelled
by the two id supplies, whose draws differ across calls). -/
theorem c2_fresh_ids_counterexample :
    createStructuredTemplate idsSeq "" reqFitG ≠
      createStructuredTemplate idsAlt "" reqFitG := by
  intro h
  obtain ⟨ta, hta⟩ := cst_blocks_decomp idsSeq "" reqFitG
  obtain ⟨tb, htb⟩ := cst_blocks_decomp idsAlt "" reqFitG
  have hh := congrArg (fun r => r.blocks.head?.map (fun b => b.id)) h
  simp only [hta, htb, List.head?_cons, Option.map_some', leadHeading] at hh
  exact (by decide : idsSeq 0 ≠ idsAlt 0) (Option.some_inj.mp hh)

theorem loopGo_succ_cont {request : IRequest} {oracle : Nat → Option JsonV}
    {ids : Nat → String} {now : String} {i : Nat} (f : Nat)
    {tmpl tmpl1 : Option ITemplate} {tcs tcs1 : List JsonV} {n n1 : Nat}
    (hstep : iterStep request ids now i (oracle i) tmpl tcs n
      = (tmpl1, tcs1, n1, .cont)) :
    loopGo request oracle ids now i (f + 1) tmpl tcs n =
      loopGo request oracle ids now (i + 1) f tmpl1 tcs1 n1 := by
  simp only [loopGo, hstep]

theorem loopGo_succ_brk {request : IRequest} {oracle : Nat → Option JsonV}
    {ids : Nat → String} {now : String} {i : Nat} (f : Nat)
    {tmpl tmpl1 : Option ITemplate} {tcs tcs1 : List JsonV} {n n1 : Nat}
    (hstep : iterStep request ids now i (oracle i) tmpl tcs n
      = (tmpl1, tcs1, n1, .brk)) :
    loopGo request oracle ids now i (f + 1) tmpl tcs n =
      ⟨tmpl1, tcs1, i + 1, false, n1⟩ := by
  simp only [loopGo, hstep]

theorem loopGo_succ_fall {request : IRequest} {oracle : Nat → Option JsonV}
    {ids : Nat → String} {now : String} {i : Nat} (f : Nat)
    {tmpl tmpl1 : Option ITemplate} {tcs tcs1 : List JsonV} {n n1 : Nat}
    (hstep : iterStep request ids now i (oracle i) tmpl tcs n
      = (tmpl1, tcs1, n1, .fall)) :
    loopGo request oracle ids now i (f + 1) tmpl tcs n =
      loopGo request oracle ids now (i + 1) f
        (lastIterFallback request ids now i tmpl1 n1).1 tcs1
        (lastIterFallback request ids now i tmpl1 n1).2 := by
  simp only [loopGo, hstep]

theorem loopGo_iters_le (request : IRequest) (oracle : Nat → Option JsonV)
    (ids : Nat → String) (now : String) :
    ∀ (fuel i : Nat) (tmpl : Option ITemplate) (tcs : List JsonV) (n : Nat),
    (loopGo request oracle ids now i fuel tmpl tcs n).iters ≤ i + fuel := by
  intro fuel
  induction fuel with
  | zero => intro i tmpl tcs n; simp [loopGo]
  | succ f ih =>
      intro i tmpl tcs n
      rcases hstep : iterStep request ids now i (oracle i) tmpl tcs n with
        ⟨tmpl1, tcs1, n1, ctl⟩
      cases ctl with
      | cont =>
          rw [loopGo_succ_cont f hstep]
          have := ih (i + 1) tmpl1 tcs1 n1
          omega
      | brk =>
          rw [loopGo_succ_brk f hstep]
          show i + 1 ≤ i + (f + 1)
          omega
      | fall =>
          rw [loopGo_succ_fall f hstep]
          have := ih (i + 1) (lastIterFallback request ids now i tmpl1 n1).1
            tcs1 (lastIterFallback request ids now i tmpl1 n1).2
          omega

theorem iterStep_keep (request : IRequest) (ids : Nat → String) (now : String)
    (i : Nat) (p : Option JsonV) (tmpl : Option ITemplate) (tcs : List JsonV)
    (n : Nat) (hp : parsedTemplateField p = none) :
    ∃ tcs1 ctl, iterStep request ids now i p tmpl tcs n = (tmpl, tcs1, n, ctl) := by
  cases p with
  | none => exact ⟨tcs, .fall, rfl⟩
  | some parsed =>
      unfold iterStep
      rw [hp]
      dsimp only
      split_ifs <;> exact ⟨_, _, rfl⟩

theorem iterStep_cont_lt (request : IRequest) (ids : Nat → String)
    (now : String) (i : Nat) (p : Option JsonV) (tmpl tmpl1 : Option ITemplate)
    (tcs tcs1 : List JsonV) (n n1 : Nat)
    (h : iterStep request ids now i p tmpl tcs n = (tmpl1, tcs1, n1, .cont)) :
    i < MAX_TOOL_ITERATIONS - 1 := by
  cases p with
  | none => simp [iterStep] at h
  | some parsed =>
      unfold iterStep at h
      cases htf : parsedTemplateField (some parsed) with
      | none =>
          rw [htf] at h
          dsimp only at h
          split_ifs at h with h1
          · simp only [Bool.and_eq_true, decide_eq_true_eq] at h1
            exact h1.2
          · simp at h
          · simp at h
      | some tf =>
          rw [htf] at h
          dsimp only at h
          split_ifs at h with h1
          · simp only [Bool.and_eq_true, decide_eq_true_eq] at h1
            exact h1.2
          · simp at h
          · simp at h

theorem loopGo_bound_fallback (request : IRequest) (oracle : Nat → Option JsonV)
    (ids : Nat → String) (now : String)
    (hnone : ∀ j, j < MAX_TOOL_ITERATIONS → parsedTemplateField (oracle j) = none) :
    ∀ (fuel i : Nat) (tcs : List JsonV),
      i + fuel = MAX_TOOL_ITERATIONS → 1 ≤ fuel →
      (loopGo request oracle ids now i fuel none tcs 0).exitedByBound = true →
      (loopGo request oracle ids now i fuel none tcs 0).template =
        some (fallbackTemplate request (ids 0) (ids 1) now) := by
  have hmax : MAX_TOOL_ITERATIONS = 3 := rfl
  intro fuel
  induction fuel with
  | zero => intro i tcs hsum hpos; exact absurd hpos (by norm_num)
  | succ f ih =>
      intro i tcs hsum hpos hexit
      obtain ⟨tcs1, ctl, hstep⟩ :=
        iterStep_keep request ids now i (oracle i) none tcs 0
          (hnone i (by omega))
      cases ctl with
      | cont =>
          have hlt := iterStep_cont_lt request ids now i (oracle i)
            none none tcs tcs1 0 0 hstep
          rw [loopGo_succ_cont f hstep] at hexit ⊢
          exact ih (i + 1) tcs1 (by omega) (by omega) hexit
      | brk =>
          rw [loopGo_succ_brk f hstep] at hexit
          simp at hexit
      | fall =>
          rw [loopGo_succ_fall f hstep] at hexit ⊢
          by_cases hi : i = MAX_TOOL_ITERATIONS - 1
          · have hlf : lastIterFallback request ids now i none 0 =
                (some (fallbackTemplate request (ids 0) (ids 1) now), 2) := by
              unfold lastIterFallback
              rw [if_pos]
              simp [hi]
            have hf0 : f = 0 := by omega
            subst hf0
            rw [hlf] at hexit ⊢
            rfl
          · have hlf : lastIterFallback request ids now i none 0 = (none, 0) := by
              unfold lastIterFallback
              rw [if_neg]
              simp [hi]
            rw [hlf] at hexit ⊢
            exact ih (i + 1) tcs1 (by omega) (by omega) hexit

/-- C1: for every request, id/time supply and every sequence of model
responses (any number of tool calls per turn), the tool-calling loop
enters at most `MAX_TOOL_ITERATIONS = 3` iterations; and when the loop
terminates because the iteration counter reached the bound without any
response having parsed to a `template` object, the returned template is
the fallback template rather than a further iteration. -/
theorem c1_loop_bounded_with_fallback (request : IRequest)
    (oracle : Nat → Option JsonV) (ids : Nat → String) (now : String) :
    (runToolLoop request oracle ids now).iters ≤ MAX_TOOL_ITERATIONS ∧
    ((runToolLoop request oracle ids now).exitedByBound = true →
      (∀ j, j < MAX_TOOL_ITERATIONS → parsedTemplateField (oracle j) = none) →
      (runToolLoop request oracle ids now).template =
        some (fallbackTemplate request (ids 0) (ids 1) now)) := by
  constructor
  · simpa using
      loopGo_iters_le request oracle ids now MAX_TOOL_ITERATIONS 0 none [] 0
  · intro hexit hnone
    exact loopGo_bound_fallback request oracle ids now hnone
      MAX_TOOL_ITERATIONS 0 [] rfl (by norm_num [MAX_TOOL_ITERATIONS]) hexit

/-- Witness for C1: a model that never returns JSON makes the loop run
its full 3 iterations and return the fallback template. -/
theorem c1_loop_bounded_with_fallback_witness :
    (runToolLoop reqFit (fun _ => none) idsSeq "T").iters ≤ MAX_TOOL_ITERATIONS ∧
    (runToolLoop reqFit (fun _ => none) idsSeq "T").template =
      some (fallbackTemplate reqFit (idsSeq 0) (idsSeq 1) "T") := by
  obtain ⟨h1, h2⟩ :=
    c1_loop_bounded_with_fallback reqFit (fun _ => none) idsSeq "T"
  exact ⟨h1, h2 rfl (fun j hj => rfl)⟩

theorem genReq_issues (d : String) :
    zodIssues [] GenerationRequestSchema (genReqPayload d) =
      (if d.length < 10 then
        [⟨["description"], "Description must be at least 10 characters"⟩] else [])
      ++ (if 2000 < d.length then [⟨["description"], strMaxMsg 2000⟩] else []) := by
  have h1 : hexColorTest "#3b82f6" = true := by decide
  have h2 : hexColorTest "#64748b" = true := by decide
  have h3 : hexColorTest "#ffffff" = true := by decide
  have h4 : hexColorTest "#f8fafc" = true := by decide
  have h5 : hexColorTest "#1e293b" = true := by decide
  have h6 : hexColorTest "#0ea5e9" = true := by decide
  simp [GenerationRequestSchema, TemplateThemeSchema, genReqPayload,
    minimalThemePayload, zfields, zodIssues, zodFieldsIssues, zodArrayIssues,
    strCheckIssues, h1, h2, h3, h4, h5, h6]
  decide

/-- C3 (amended): the canonical generation-request schema accepts a
description exactly when its length is between 10 and 2000 characters
inclusive (all other fields being valid), rejecting a too-short
description with the custom too-short message and a too-long one with
zod's default too-long message — two distinct messages.  (The claim as
stated fails on the duplicate schema in `src/lib/validation.ts`, which
caps the description at 500 characters; see the counterexample.) -/
theorem c3_description_bounds (d : String) :
    ((validateWithErrors GenerationRequestSchema (genReqPayload d)).success
        = true ↔ 10 ≤ d.length ∧ d.length ≤ 2000) ∧
    (d.length < 10 →
      (validateWithErrors GenerationRequestSchema (genReqPayload d)).errors =
        ["description: Description must be at least 10 characters"]) ∧
    (2000 < d.length →
      (validateWithErrors GenerationRequestSchema (genReqPayload d)).errors =
        ["description: " ++ strMaxMsg 2000]) ∧
    ("description: Description must be at least 10 characters" ≠
      "description: " ++ strMaxMsg 2000) := by
  have hiss := genReq_issues d
  refine ⟨?_, ?_, ?_, by decide⟩
  · simp only [validateWithErrors, hiss]
    by_cases h10 : d.length < 10
    · simp [h10]
    · by_cases h2k : 2000 < d.length
      · simp [h10, h2k]
      · simp [h10, h2k]
        all_goals omega
  · intro h10
    have h2k : ¬(2000 < d.length) := by omega
    simp only [validateWithErrors, hiss]
    simp [h10, h2k, formatIssue]
    decide
  · intro h2k
    have h10 : ¬(d.length < 10) := by omega
    simp only [validateWithErrors, hiss]
    simp [h10, h2k, formatIssue]
    decide

set_option maxRecDepth 8192 in
/-- Counterexample for C3 as stated: generation-request validation as
implemented in `src/lib/validation.ts` rejects a 501-character
description — a length inside the 10–2000 range the claim says is
accepted. -/
theorem c3_lib_max500_counterexample :
    (validateWithErrors GenerationRequestSchemaLib (genReqPayloadLib dLong)).success
      = false ∧
    10 ≤ dLong.length ∧ dLong.length ≤ 2000 := by
  have hlen : dLong.length = 501 := by decide
  refine ⟨?_, by rw [hlen]; omega, by rw [hlen]; omega⟩
  simp [validateWithErrors, GenerationRequestSchemaLib, genReqPayloadLib,
    zfields, zodIssues, zodFieldsIssues, zodArrayIssues, strCheckIssues, hlen]

/-- Witness for C3 (amended): a 21-character description is accepted;
a 5-character one is rejected with the custom too-short message. -/
theorem c3_description_bounds_witness :
    (validateWithErrors GenerationRequestSchema
      (genReqPayload "A fitness tracker app")).success = true ∧
    (validateWithErrors GenerationRequestSchema (genReqPayload "short")).errors =
      ["description: Description must be at least 10 characters"] :=
  ⟨(c3_description_bounds "A fitness tracker app").1.mpr ⟨by decide, by decide⟩,
   (c3_description_bounds "short").2.1 (by decide)⟩

/-- C6: the validation wrapper returns `{success: true, data, errors: []}`
exactly when the schema produces NO issue, and otherwise
`{success: false, data: none}` with `errors` the COMPLETE formatted
issue list — every issue of the payload appears, each rendered as
`"<field.path>: <message>"`; a payload with any violation is rejected
wholesale, never partially accepted. -/
theorem c6_validate_wholesale (schema : Zod) (payload : JsonV) :
    ((validateWithErrors schema payload).success = true ↔
      zodIssues [] schema payload = []) ∧
    ((validateWithErrors schema payload).success = true →
      (validateWithErrors schema payload).data = some payload ∧
      (validateWithErrors schema payload).errors = []) ∧
    ((validateWithErrors schema payload).success = false →
      (validateWithErrors schema payload).data = none ∧
      (validateWithErrors schema payload).errors =
        (zodIssues [] schema payload).map formatIssue ∧
      (validateWithErrors schema payload).errors ≠ []) ∧
    (∀ e ∈ (validateWithErrors schema payload).errors,
      ∃ iss ∈ zodIssues [] schema payload,
        e = String.intercalate "." iss.path ++ ": " ++ iss.message) := by
  by_cases hi : zodIssues [] schema payload = []
  · simp [validateWithErrors, hi]
  · refine ⟨?_, ?_, ?_, ?_⟩
    · simp [validateWithErrors, hi]
    · simp [validateWithErrors, hi]
    · intro hf
      simp [validateWithErrors, hi]
    · intro e he
      simp only [validateWithErrors, hi] at he
      simp only [List.isEmpty_eq_true, hi, if_false] at he
      obtain ⟨iss, hiss, rfl⟩ := List.mem_map.mp he
      exact ⟨iss, hiss, rfl⟩

/-- Witness for C6: a payload with four independent violations is
rejected with all four formatted errors listed. -/
theorem c6_validate_wholesale_witness :
    (validateWithErrors GenerationRequestSchemaLib payloadTwoBad).success = false ∧
    (validateWithErrors GenerationRequestSchemaLib payloadTwoBad).errors =
      ["description: String must contain at least 10 character(s)",
       "theme: Required",
       "useMCP: Expected boolean, received number",
       "selectedServers: Required"] := by
  have hlen : ("hi" : String).length = 2 := by decide
  have hiss : zodIssues [] GenerationRequestSchemaLib payloadTwoBad =
      [⟨["description"], strMinMsg 10⟩, ⟨["theme"], "Required"⟩,
       ⟨["useMCP"], "Expected boolean, received number"⟩,
       ⟨["selectedServers"], "Required"⟩] := by
    simp [GenerationRequestSchemaLib, payloadTwoBad, zfields, zodIssues,
      zodFieldsIssues, strCheckIssues, typeNameOf, hlen]
  obtain ⟨hiff, -, hfail, -⟩ :=
    c6_validate_wholesale GenerationRequestSchemaLib payloadTwoBad
  have hsucc : (validateWithErrors GenerationRequestSchemaLib payloadTwoBad).success
      = false := by
    cases hsv : (validateWithErrors GenerationRequestSchemaLib payloadTwoBad).success
    · rfl
    · have := hiff.mp hsv
      rw [hiss] at this
      simp at this
  obtain ⟨-, herr, -⟩ := hfail hsucc
  refine ⟨hsucc, ?_⟩
  rw [herr, hiss]
  decide

end TG
